import Mathlib

/-!
Verification development for the Config Runner of the data-validation job
runner, and for the BigQuery result handler.

The Config Runner itself (`config_runner` in `data_validation/__main__.py`)
is not part of the provided sources; only its unit tests
(`tests/unit/test__main.py`) are.  The definitions below are therefore
modelled from the specification, with the behaviour pinned down wherever the
unit tests constrain it:

* `test_config_runner_3` together with `test_config_runner_4` show that the
  indexed-directory mode is entered only when `kube_completions` is set AND a
  shard index is present in the environment (`test_config_runner_3` sets
  `JOB_COMPLETION_INDEX=2` and never removes it, yet `test_config_runner_4`,
  which runs afterwards with `kube_completions=False`, expects full
  directory fan-out with 4 validation invocations).
* `test_config_runner_3` and `test_config_runner_4` jointly show that the
  shard files are named by 0-based ordinal (`0000.yaml` .. `0003.yaml` for a
  directory of four): shard index 2 selects `0002.yaml`, and the second file
  in listing order is `0001.yaml`.
* `test_config_runner_3` shows that in indexed-directory mode the request
  handed to the validation engine has `config_dir` cleared to `None` and
  `config_file` set to the selected shard file.

`BigQueryResultHandler` is translated from
`data_validation/result_handlers/bigquery.py`, which is part of the sources.
-/

/-- A built validation configuration.  The core never inspects it, so it is
modelled as an opaque token (the unit tests use the string
`"config dict from one file"`). -/
abbrev ConfigManager := String

/-- Modelled from the spec: `ExecutionRequest` is the immutable value built
from CLI/environment input (spec section 3), with the fields named there. -/
structure ExecutionRequest where
  config_file : Option String
  config_dir : Option String
  kube_completions : Bool
  dry_run : Bool
  log_level : String
deriving Repr, DecidableEq

/-- Modelled from the spec: the process environment as seen by the runner;
`shard_index` is the optional non-negative integer `JOB_COMPLETION_INDEX`
(spec section 3, `ShardIndex`). -/
structure Env where
  shard_index : Option Nat
deriving Repr, DecidableEq

/-- A single resolved path to one configuration artifact (spec section 3,
`ArtifactRef`).  `path` is what the config builder receives; `name` is the
filename used in log messages (the tests log bare filenames such as
`0001.yaml`). -/
structure ArtifactRef where
  path : String
  name : String
deriving Repr, DecidableEq

/-- Modelled from the spec: the external collaborators of the core
(spec section 6), as oracles keyed by artifact path.
`listDir` lists a directory's artifact filenames in listing order;
`build` is `build_config_managers_from_yaml` (may raise, modelled as
`Except`); `runValidations` is the validation engine (may raise). -/
structure Collaborators where
  listDir : String → List String
  build : String → Except String (List ConfigManager)
  runValidations : String → Except String Nat

/-- Modelled from the spec: the execution modes of the Resolver
(spec section 4.1). -/
inductive Mode where
  | singleFile
  | indexedDir
  | dirFanout
  | noTarget
deriving Repr, DecidableEq

/-- Modelled from the spec: mode disambiguation (spec section 4.1), with the
indexed-directory mode requiring both the `kube_completions` flag and a
present shard index, as pinned by `test_config_runner_4` (which runs with
`JOB_COMPLETION_INDEX` still set but `kube_completions=False` and expects
directory fan-out). -/
def resolveMode (req : ExecutionRequest) (env : Env) : Mode :=
  if req.config_file.isSome then Mode.singleFile
  else if req.config_dir.isSome then
    (if req.kube_completions && env.shard_index.isSome then Mode.indexedDir
     else Mode.dirFanout)
  else Mode.noTarget

/-- The exact warning logged when `-kc` is given together with a specific
config file (asserted verbatim in `test_config_runner_1`). -/
def kcFileWarning : String :=
  "--kube-completions or -kc specified, which requires a config directory, however a specific config file is provided."

/-- The exact warning logged when `-kc` is given but no shard index is
present (asserted verbatim in `test_config_runner_2`). -/
def kcNoIndexWarning : String :=
  "--kube-completions or -kc specified, however not running in Kubernetes Job completion, check your command line."

/-- Modelled from the spec: the Misconfiguration Detector (spec section 4.2);
warning texts are the ones asserted by the unit tests. -/
def checkMisconfiguration (mode : Mode) (req : ExecutionRequest) : List String :=
  match mode with
  | Mode.singleFile => if req.kube_completions then [kcFileWarning] else []
  | Mode.dirFanout => if req.kube_completions then [kcNoIndexWarning] else []
  | Mode.indexedDir => []
  | Mode.noTarget => []

/-- Zero-pad the decimal form of `k` to width 4 (the canonical shard file
token width: index 2 gives `"0002"`). -/
def zeroPad4 (k : Nat) : String :=
  let s := toString k
  String.mk (List.replicate (4 - s.length) '0') ++ s

/-- The canonical shard filename for index `k`, e.g. `shardFileName 2 =
"0002.yaml"` (spec section 6, directory artifact naming convention). -/
def shardFileName (k : Nat) : String := zeroPad4 k ++ ".yaml"

/-- The characters after the last `/` of a character list (`acc` holds the
characters of the current component). -/
def baseNameAux (acc : List Char) : List Char → List Char
  | [] => acc
  | c :: cs => if c = '/' then baseNameAux [] cs else baseNameAux (acc ++ [c]) cs

/-- The last `/`-separated component of a path (used as an artifact's log
name in single-file mode). -/
def baseName (p : String) : String := String.mk (baseNameAux [] p.data)

/-- Modelled from the spec: the Artifact Source Resolver (spec section 4.1).
Returns the effective request handed onward together with the resolved
artifact sequence.  Precedence: a set `config_file` wins; otherwise a set
`config_dir` with `kube_completions` and a shard index selects the single
entry at the shard position (signalling an error when out of range) and
rewrites the request (`config_dir := none`, `config_file :=` the selected
path, as asserted by `test_config_runner_3`); otherwise a set `config_dir`
fans out over the whole listing; otherwise the result is empty. -/
def resolveArtifacts (req : ExecutionRequest) (env : Env)
    (listDir : String → List String) :
    Except String (ExecutionRequest × List ArtifactRef) :=
  match req.config_file with
  | some f => Except.ok (req, [{ path := f, name := baseName f }])
  | none =>
    match req.config_dir with
    | some d =>
      match (if req.kube_completions then env.shard_index else none) with
      | some k =>
        match (listDir d)[k]? with
        | some n =>
          Except.ok
            ({ req with config_dir := none, config_file := some (d ++ "/" ++ n) },
             [{ path := d ++ "/" ++ n, name := n }])
        | none => Except.error "shard index out of range"
      | none =>
        Except.ok (req, (listDir d).map (fun n => { path := d ++ "/" ++ n, name := n }))
    | none => Except.ok (req, [])

/-- The accumulated state of the Batch Executor: validation-engine
invocations (the request and config list of each call, in order), skip log
lines, captured failures, and the artifacts attempted so far. -/
structure BatchState where
  invocations : List (ExecutionRequest × List ConfigManager)
  skipLogs : List String
  failures : List (ArtifactRef × String)
  attempted : List ArtifactRef
deriving Repr

/-- The fixed per-failure skip message template (asserted verbatim in
`test_config_runner_4`): `Error '<msg>' occurred while running config file
<name>. Skipping it for now.` -/
def skipTemplate (msg name : String) : String :=
  "Error '" ++ msg ++ "' occurred while running config file " ++ name ++
    ". Skipping it for now."

/-- Modelled from the spec: one step of the Batch Executor (spec section
4.3): build the artifact, invoke the validation engine, and isolate any
exception, logging the fixed skip template and recording the failure. -/
def runOneArtifact (co : Collaborators) (effReq : ExecutionRequest)
    (st : BatchState) (a : ArtifactRef) : BatchState :=
  match co.build a.path with
  | Except.error e =>
    { invocations := st.invocations
      skipLogs := st.skipLogs ++ [skipTemplate e a.name]
      failures := st.failures ++ [(a, e)]
      attempted := st.attempted ++ [a] }
  | Except.ok cms =>
    match co.runValidations a.path with
    | Except.error e =>
      { invocations := st.invocations ++ [(effReq, cms)]
        skipLogs := st.skipLogs ++ [skipTemplate e a.name]
        failures := st.failures ++ [(a, e)]
        attempted := st.attempted ++ [a] }
    | Except.ok _ =>
      { invocations := st.invocations ++ [(effReq, cms)]
        skipLogs := st.skipLogs
        failures := st.failures
        attempted := st.attempted ++ [a] }

/-- Modelled from the spec: the Batch Executor (spec section 4.3), a strict
left-to-right pass over the resolved artifacts with per-artifact failure
isolation. -/
def runBatch (co : Collaborators) (effReq : ExecutionRequest)
    (arts : List ArtifactRef) : BatchState :=
  arts.foldl (runOneArtifact co effReq)
    { invocations := [], skipLogs := [], failures := [], attempted := [] }

/-- The fixed message of the aggregated failure (asserted verbatim in
`test_config_runner_4`). -/
def aggregatedMessage : String := "Some of the validations raised an exception"

/-- The observable outcome of one Config Runner invocation: the warnings
emitted by the Misconfiguration Detector, the skip log lines, the
validation-engine invocations, the attempted artifacts, the captured
failures, and the terminal outcome (normal return, or the aggregated
failure). -/
structure RunnerResult where
  warnings : List String
  skipLogs : List String
  invocations : List (ExecutionRequest × List ConfigManager)
  attempted : List ArtifactRef
  failures : List (ArtifactRef × String)
  outcome : Except String Unit
deriving Repr

/-- Modelled from the spec: the whole Config Runner (spec sections 4.1-4.4):
resolve, check misconfiguration, execute the batch with failure isolation,
then raise the aggregated failure exactly when at least one per-artifact
failure was captured.  A resolution error escapes as the outer `error`. -/
def config_runner (co : Collaborators) (req : ExecutionRequest) (env : Env) :
    Except String RunnerResult :=
  match resolveArtifacts req env co.listDir with
  | Except.error e => Except.error e
  | Except.ok (effReq, arts) =>
    let st := runBatch co effReq arts
    Except.ok
      { warnings := checkMisconfiguration (resolveMode req env) req
        skipLogs := st.skipLogs
        invocations := st.invocations
        attempted := st.attempted
        failures := st.failures
        outcome :=
          if st.failures.isEmpty then Except.ok ()
          else Except.error aggregatedMessage }

/-- The error message, if any, produced by one artifact: the build error, or
else the validation error, or none. -/
def artifactError (co : Collaborators) (a : ArtifactRef) : Option String :=
  match co.build a.path with
  | Except.error e => some e
  | Except.ok _ =>
    match co.runValidations a.path with
    | Except.error e => some e
    | Except.ok _ => none

/-- The skip log line produced for one captured failure. -/
def msgOf (p : ArtifactRef × String) : String := skipTemplate p.2 p.1.name

/-- The (zero- or one-element) failure list contributed by one artifact. -/
def failureOf (co : Collaborators) (a : ArtifactRef) :
    Option (ArtifactRef × String) :=
  (artifactError co a).map (fun e => (a, e))

/- Concrete worlds mirroring the unit-test scenarios. -/

/-- The directory of four shard files used by `test_config_runner_3/4`. -/
def dirFour : String := "gs://resources/4partitions"

/-- Its listing, in listing order (0-based shard naming, pinned by the
tests). -/
def listingFour : List String := ["0000.yaml", "0001.yaml", "0002.yaml", "0003.yaml"]

/-- Collaborators mirroring the mocks of `test_config_runner_4`: building
always yields one config manager, and validation raises `Boom!` exactly on
the second file of `dirFour`. -/
def coBoom : Collaborators :=
  { listDir := fun s => if s = dirFour then listingFour else []
    build := fun _ => Except.ok ["config dict from one file"]
    runValidations := fun p =>
      if p = dirFour ++ "/0001.yaml" then Except.error "Boom!" else Except.ok 10 }

/-- The request of `test_config_runner_4`: directory target, no
`kube_completions`. -/
def reqFanout : ExecutionRequest :=
  { config_file := none, config_dir := some dirFour, kube_completions := false,
    dry_run := false, log_level := "INFO" }

/-- The request of `test_config_runner_3`: directory target with
`kube_completions`. -/
def reqKube : ExecutionRequest :=
  { config_file := none, config_dir := some dirFour, kube_completions := true,
    dry_run := false, log_level := "INFO" }

/-- The request of `test_config_runner_1`: a single config file with
`kube_completions`. -/
def reqSingle : ExecutionRequest :=
  { config_file := some "gs://resources/3validations/first.yaml",
    config_dir := none, kube_completions := true,
    dry_run := false, log_level := "INFO" }

/-- Environment without a shard index. -/
def envNone : Env := { shard_index := none }

/-- Environment with `JOB_COMPLETION_INDEX=2` (as in `test_config_runner_3`). -/
def envTwo : Env := { shard_index := some 2 }

/- Concrete values of the Boom scenario (the run of `test_config_runner_4`),
shared by several witnesses. -/

/-- The four artifacts resolved in the Boom scenario. -/
def artsBoom : List ArtifactRef :=
  listingFour.map (fun n => { path := dirFour ++ "/" ++ n, name := n })

/-- The complete observable result of the Boom scenario run. -/
def resBoom : RunnerResult :=
  { warnings := []
    skipLogs := ["Error 'Boom!' occurred while running config file 0001.yaml. Skipping it for now."]
    invocations :=
      [(reqFanout, ["config dict from one file"]),
       (reqFanout, ["config dict from one file"]),
       (reqFanout, ["config dict from one file"]),
       (reqFanout, ["config dict from one file"])]
    attempted := artsBoom
    failures := [({ path := dirFour ++ "/" ++ "0001.yaml", name := "0001.yaml" }, "Boom!")]
    outcome := Except.error aggregatedMessage }

example : config_runner coBoom reqFanout envNone = Except.ok resBoom := rfl

/- The BigQuery result handler, translated from
`data_validation/result_handlers/bigquery.py`. -/

/-- A result dataframe.  The handler never inspects it, so its contents are
opaque rows. -/
structure DataFrame where
  rows : List (List String)
deriving Repr, DecidableEq

/-- A validation config as passed to a result handler; opaque to the
handler. -/
abbrev ValidationConfig := List (String × String)

/-- The BigQuery client, modelled by the record of dataframes passed to
`insert_rows_from_dataframe`, in call order. -/
structure BQClient where
  inserted : List DataFrame
deriving Repr, DecidableEq

/-- `Client.insert_rows_from_dataframe`: records one insertion call. -/
def insert_rows_from_dataframe (c : BQClient) (df : DataFrame) : BQClient :=
  { inserted := c.inserted ++ [df] }

/-- `BigQueryResultHandler` (bigquery.py, lines 18-30): holds the client. -/
structure BigQueryResultHandler where
  bigquery_client : BQClient
deriving Repr, DecidableEq

/-- `BigQueryResultHandler.execute` (bigquery.py, lines 32-35): calls
`insert_rows_from_dataframe` on the client with the result dataframe, then
returns that dataframe.  The updated client is returned alongside to make
the side effect observable. -/
def BigQueryResultHandler.execute (h : BigQueryResultHandler)
    (config : ValidationConfig) (result_df : DataFrame) :
    BQClient × DataFrame :=
  (insert_rows_from_dataframe h.bigquery_client result_df, result_df)

example :
    (config_runner coBoom reqFanout envNone).map (fun r => r.skipLogs) =
      Except.ok [skipTemplate "Boom!" "0001.yaml"] := rfl

example :
    (config_runner coBoom reqKube envTwo).map
        (fun r => r.invocations.map (fun p => (p.1.config_dir, p.1.config_file))) =
      Except.ok [(none, some "gs://resources/4partitions/0002.yaml")] := rfl

/- Helper lemmas about one executor step. -/

theorem runOneArtifact_attempted (co : Collaborators) (effReq : ExecutionRequest)
    (st : BatchState) (a : ArtifactRef) :
    (runOneArtifact co effReq st a).attempted = st.attempted ++ [a] := by
  cases h : co.build a.path with
  | error e => simp [runOneArtifact, h]
  | ok cms =>
    cases h2 : co.runValidations a.path <;> simp [runOneArtifact, h, h2]

theorem runOneArtifact_invocations_of_ok (co : Collaborators)
    (effReq : ExecutionRequest) (st : BatchState) (a : ArtifactRef)
    (h : (co.build a.path).isOk = true) :
    (runOneArtifact co effReq st a).invocations.length =
      st.invocations.length + 1 := by
  cases hb : co.build a.path with
  | error e => rw [hb] at h; simp [Except.isOk, Except.toBool] at h
  | ok cms =>
    cases h2 : co.runValidations a.path <;> simp [runOneArtifact, hb, h2]

theorem runOneArtifact_failures (co : Collaborators) (effReq : ExecutionRequest)
    (st : BatchState) (a : ArtifactRef) :
    (runOneArtifact co effReq st a).failures =
      st.failures ++ (failureOf co a).toList := by
  cases hb : co.build a.path with
  | error e => simp [runOneArtifact, hb, failureOf, artifactError]
  | ok cms =>
    cases h2 : co.runValidations a.path <;>
      simp [runOneArtifact, hb, h2, failureOf, artifactError]

theorem runOneArtifact_skipLogs (co : Collaborators) (effReq : ExecutionRequest)
    (st : BatchState) (a : ArtifactRef) :
    (runOneArtifact co effReq st a).skipLogs =
      st.skipLogs ++ ((failureOf co a).toList).map msgOf := by
  cases hb : co.build a.path with
  | error e => simp [runOneArtifact, hb, failureOf, artifactError, msgOf]
  | ok cms =>
    cases h2 : co.runValidations a.path <;>
      simp [runOneArtifact, hb, h2, failureOf, artifactError, msgOf]

/- Helper lemmas about the whole batch pass, generalised over the starting
state. -/

theorem foldl_runOne_attempted (co : Collaborators) (effReq : ExecutionRequest) :
    ∀ (arts : List ArtifactRef) (st : BatchState),
      (arts.foldl (runOneArtifact co effReq) st).attempted =
        st.attempted ++ arts := by
  intro arts
  induction arts with
  | nil => intro st; simp
  | cons a as ih =>
    intro st
    simp only [List.foldl_cons]
    rw [ih, runOneArtifact_attempted]
    simp

theorem foldl_runOne_invocations_length (co : Collaborators)
    (effReq : ExecutionRequest) :
    ∀ (arts : List ArtifactRef) (st : BatchState),
      (∀ a ∈ arts, (co.build a.path).isOk = true) →
      (arts.foldl (runOneArtifact co effReq) st).invocations.length =
        st.invocations.length + arts.length := by
  intro arts
  induction arts with
  | nil => intro st _; simp
  | cons a as ih =>
    intro st hall
    simp only [List.foldl_cons]
    rw [ih _ (fun x hx => hall x (List.mem_cons_of_mem a hx)),
      runOneArtifact_invocations_of_ok co effReq st a
        (hall a (List.mem_cons_self a as))]
    simp [Nat.add_assoc, Nat.add_comm 1 as.length]

theorem foldl_runOne_failures (co : Collaborators) (effReq : ExecutionRequest) :
    ∀ (arts : List ArtifactRef) (st : BatchState),
      (arts.foldl (runOneArtifact co effReq) st).failures =
        st.failures ++ arts.filterMap (failureOf co) := by
  intro arts
  induction arts with
  | nil => intro st; simp
  | cons a as ih =>
    intro st
    simp only [List.foldl_cons]
    rw [ih, runOneArtifact_failures, List.filterMap_cons]
    cases h : failureOf co a <;> simp [h]

theorem foldl_runOne_skipLogs (co : Collaborators) (effReq : ExecutionRequest) :
    ∀ (arts : List ArtifactRef) (st : BatchState),
      (arts.foldl (runOneArtifact co effReq) st).skipLogs =
        st.skipLogs ++ (arts.filterMap (failureOf co)).map msgOf := by
  intro arts
  induction arts with
  | nil => intro st; simp
  | cons a as ih =>
    intro st
    simp only [List.foldl_cons]
    rw [ih, runOneArtifact_skipLogs, List.filterMap_cons]
    cases h : failureOf co a <;> simp [h]

theorem runBatch_attempted (co : Collaborators) (effReq : ExecutionRequest)
    (arts : List ArtifactRef) :
    (runBatch co effReq arts).attempted = arts := by
  unfold runBatch
  rw [foldl_runOne_attempted]
  simp

theorem runBatch_invocations_length (co : Collaborators)
    (effReq : ExecutionRequest) (arts : List ArtifactRef)
    (hall : ∀ a ∈ arts, (co.build a.path).isOk = true) :
    (runBatch co effReq arts).invocations.length = arts.length := by
  unfold runBatch
  rw [foldl_runOne_invocations_length co effReq arts _ hall]
  simp

theorem runBatch_failures (co : Collaborators) (effReq : ExecutionRequest)
    (arts : List ArtifactRef) :
    (runBatch co effReq arts).failures = arts.filterMap (failureOf co) := by
  unfold runBatch
  rw [foldl_runOne_failures]
  simp

theorem runBatch_skipLogs (co : Collaborators) (effReq : ExecutionRequest)
    (arts : List ArtifactRef) :
    (runBatch co effReq arts).skipLogs =
      ((runBatch co effReq arts).failures).map msgOf := by
  unfold runBatch
  rw [foldl_runOne_skipLogs, foldl_runOne_failures]
  simp

theorem config_runner_eq_of_resolve (co : Collaborators)
    (req : ExecutionRequest) (env : Env) (effReq : ExecutionRequest)
    (arts : List ArtifactRef)
    (hres : resolveArtifacts req env co.listDir = Except.ok (effReq, arts)) :
    config_runner co req env = Except.ok
      { warnings := checkMisconfiguration (resolveMode req env) req
        skipLogs := (runBatch co effReq arts).skipLogs
        invocations := (runBatch co effReq arts).invocations
        attempted := (runBatch co effReq arts).attempted
        failures := (runBatch co effReq arts).failures
        outcome :=
          if (runBatch co effReq arts).failures.isEmpty then Except.ok ()
          else Except.error aggregatedMessage } := by
  unfold config_runner
  rw [hres]

/-- C1: for every resolved artifact sequence, the Batch Executor attempts
every artifact exactly once, in resolved order, whatever the build and
validation outcomes are; and when every build succeeds (so failures, if
any, are validation failures), the number of validation-engine invocations
equals the number of artifacts. -/
theorem C1_batch_attempts_all (co : Collaborators) (effReq : ExecutionRequest)
    (arts : List ArtifactRef) :
    (runBatch co effReq arts).attempted = arts ∧
    ((∀ a ∈ arts, (co.build a.path).isOk = true) →
      (runBatch co effReq arts).invocations.length = arts.length) :=
  ⟨runBatch_attempted co effReq arts,
   fun hall => runBatch_invocations_length co effReq arts hall⟩

/-- Witness for C1 at the Boom scenario: four artifacts, the second one's
validation raises, yet all four are attempted and the engine is invoked
four times. -/
theorem C1_batch_attempts_all_witness :
    (runBatch coBoom reqFanout artsBoom).attempted = artsBoom ∧
    (runBatch coBoom reqFanout artsBoom).invocations.length = 4 :=
  ⟨(C1_batch_attempts_all coBoom reqFanout artsBoom).1,
   (C1_batch_attempts_all coBoom reqFanout artsBoom).2 (fun _ _ => rfl)⟩

/-- C2: the Config Runner produces the aggregated failure if and only if at
least one per-artifact failure was captured; the aggregated failure carries
exactly the fixed message `Some of the validations raised an exception`; it
is produced only after every resolved artifact was attempted; and with zero
failures the run returns normally. -/
theorem C2_aggregated_failure_iff (co : Collaborators) (req : ExecutionRequest)
    (env : Env) (effReq : ExecutionRequest) (arts : List ArtifactRef)
    (res : RunnerResult)
    (hres : resolveArtifacts req env co.listDir = Except.ok (effReq, arts))
    (hrun : config_runner co req env = Except.ok res) :
    (res.outcome = Except.error aggregatedMessage ↔ res.failures ≠ []) ∧
    (res.outcome = Except.ok () ↔ res.failures = []) ∧
    res.attempted = arts := by
  rw [config_runner_eq_of_resolve co req env effReq arts hres] at hrun
  injection hrun with h
  subst h
  refine ⟨?_, ?_, runBatch_attempted co effReq arts⟩
  · show (if (runBatch co effReq arts).failures.isEmpty then Except.ok ()
      else Except.error aggregatedMessage) = Except.error aggregatedMessage ↔
        (runBatch co effReq arts).failures ≠ []
    cases hfl : (runBatch co effReq arts).failures with
    | nil => simp
    | cons p rest => simp
  · show (if (runBatch co effReq arts).failures.isEmpty then Except.ok ()
      else Except.error aggregatedMessage) = Except.ok () ↔
        (runBatch co effReq arts).failures = []
    cases hfl : (runBatch co effReq arts).failures with
    | nil => simp
    | cons p rest => simp

/-- Witness for C2 at the Boom scenario: one failure was captured, so the
outcome is exactly the aggregated failure, after all four artifacts were
attempted. -/
theorem C2_aggregated_failure_iff_witness :
    (resBoom.outcome = Except.error aggregatedMessage ↔ resBoom.failures ≠ []) ∧
    (resBoom.outcome = Except.ok () ↔ resBoom.failures = []) ∧
    resBoom.attempted = artsBoom :=
  C2_aggregated_failure_iff coBoom reqFanout envNone reqFanout artsBoom resBoom
    rfl rfl

/-- C3: whenever `config_file` is set, resolution yields exactly one
artifact equal to that file, irrespective of `kube_completions`,
`config_dir` and the shard environment; and when building that file
succeeds, the validation engine is invoked exactly once, with the config
list built from that single file. -/
theorem C3_single_file_resolution (co : Collaborators) (req : ExecutionRequest)
    (env : Env) (f : String) (cms : List ConfigManager)
    (hf : req.config_file = some f)
    (hb : co.build f = Except.ok cms) :
    resolveArtifacts req env co.listDir =
      Except.ok (req, [{ path := f, name := baseName f }]) ∧
    (config_runner co req env).map (fun r => r.invocations) =
      Except.ok [(req, cms)] := by
  have hres : resolveArtifacts req env co.listDir =
      Except.ok (req, [{ path := f, name := baseName f }]) := by
    unfold resolveArtifacts
    rw [hf]
  refine ⟨hres, ?_⟩
  rw [config_runner_eq_of_resolve co req env req _ hres]
  have hone : (runBatch co req [{ path := f, name := baseName f }]).invocations =
      [(req, cms)] := by
    cases h2 : co.runValidations f <;>
      simp [runBatch, runOneArtifact, hb, h2]
  simp [Except.map, hone]

/-- Witness for C3: the single-file request of `test_config_runner_1`, with
the directory-and-shard environment present and `kube_completions` set,
still resolves to exactly that file and yields one engine invocation. -/
theorem C3_single_file_resolution_witness :
    resolveArtifacts reqSingle envTwo coBoom.listDir =
      Except.ok (reqSingle,
        [{ path := "gs://resources/3validations/first.yaml", name := "first.yaml" }]) ∧
    (config_runner coBoom reqSingle envTwo).map (fun r => r.invocations) =
      Except.ok [(reqSingle, ["config dict from one file"])] :=
  C3_single_file_resolution coBoom reqSingle envTwo
    "gs://resources/3validations/first.yaml" ["config dict from one file"] rfl rfl

/-- C4: with only `config_dir` set and no shard index in the environment,
resolution yields every artifact file of the directory in listing order,
and (when every build succeeds) the validation engine is invoked once per
artifact, so the invocation count equals the directory size. -/
theorem C4_directory_fanout (co : Collaborators) (req : ExecutionRequest)
    (env : Env) (d : String)
    (hf : req.config_file = none)
    (hd : req.config_dir = some d)
    (hs : env.shard_index = none)
    (hbuild : ∀ n ∈ co.listDir d, (co.build (d ++ "/" ++ n)).isOk = true) :
    resolveArtifacts req env co.listDir =
      Except.ok (req, (co.listDir d).map
        (fun n => { path := d ++ "/" ++ n, name := n })) ∧
    (config_runner co req env).map (fun r => r.invocations.length) =
      Except.ok (co.listDir d).length := by
  have hres : resolveArtifacts req env co.listDir =
      Except.ok (req, (co.listDir d).map
        (fun n => { path := d ++ "/" ++ n, name := n })) := by
    unfold resolveArtifacts
    rw [hf, hd, hs]
    simp
  refine ⟨hres, ?_⟩
  rw [config_runner_eq_of_resolve co req env req _ hres]
  have hall : ∀ a ∈ (co.listDir d).map
      (fun n => ({ path := d ++ "/" ++ n, name := n } : ArtifactRef)),
      (co.build a.path).isOk = true := by
    intro a ha
    rcases List.mem_map.mp ha with ⟨n, hn, rfl⟩
    exact hbuild n hn
  simp [Except.map, runBatch_invocations_length co req _ hall]

/-- Witness for C4 at the directory of four shard files with no shard
index: resolution yields all four files and the engine is invoked four
times. -/
theorem C4_directory_fanout_witness :
    resolveArtifacts reqFanout envNone coBoom.listDir =
      Except.ok (reqFanout, (coBoom.listDir dirFour).map
        (fun n => { path := dirFour ++ "/" ++ n, name := n })) ∧
    (config_runner coBoom reqFanout envNone).map (fun r => r.invocations.length) =
      Except.ok (coBoom.listDir dirFour).length :=
  C4_directory_fanout coBoom reqFanout envNone dirFour rfl rfl rfl
    (fun _ _ => rfl)

/-- C10: `execute` passes the result dataframe to the client's
`insert_rows_from_dataframe` exactly once and returns the very dataframe it
was given, unchanged; the config argument has no effect on anything it
does. -/
theorem C10_bigquery_execute (h : BigQueryResultHandler)
    (config config2 : ValidationConfig) (df : DataFrame) :
    (BigQueryResultHandler.execute h config df).2 = df ∧
    (BigQueryResultHandler.execute h config df).1.inserted =
      h.bigquery_client.inserted ++ [df] ∧
    BigQueryResultHandler.execute h config df =
      BigQueryResultHandler.execute h config2 df :=
  ⟨rfl, rfl, rfl⟩

/-- C5 counterexample: a request with `config_dir` set and a shard index
present in the environment but `kube_completions` false resolves to all
four directory entries (directory fan-out), not to exactly one artifact,
and the engine is invoked four times, not once.  (This matches
`test_config_runner_4`, which runs with `JOB_COMPLETION_INDEX` still set by
`test_config_runner_3` yet expects four invocations.) -/
theorem C5_counterexample :
    reqFanout.config_dir = some dirFour ∧
    envTwo.shard_index = some 2 ∧
    (resolveArtifacts reqFanout envTwo coBoom.listDir).map (fun p => p.2.length) =
      Except.ok 4 ∧
    (config_runner coBoom reqFanout envTwo).map (fun r => r.invocations.length) =
      Except.ok 4 ∧
    (4 : Nat) ≠ 1 :=
  ⟨rfl, rfl, rfl, rfl, by decide⟩

/-- C5 amended: with `config_file` unset, `config_dir` set,
`kube_completions` true and shard index `k` present, a directory whose
listing follows the canonical 0-based zero-padded naming with `k` in
range, and a successful build of the selected file: resolution yields
exactly one artifact whose filename is the canonical zero-padded token for
`k` (for `k = 2`, `0002.yaml`), and the validation engine is invoked
exactly once, with the config list built from that single file. -/
theorem C5_indexed_directory (co : Collaborators) (req : ExecutionRequest)
    (env : Env) (d : String) (k nfiles : Nat) (cms : List ConfigManager)
    (hf : req.config_file = none)
    (hd : req.config_dir = some d)
    (hk : req.kube_completions = true)
    (hs : env.shard_index = some k)
    (hlist : co.listDir d = (List.range nfiles).map shardFileName)
    (hkn : k < nfiles)
    (hb : co.build (d ++ "/" ++ shardFileName k) = Except.ok cms) :
    resolveArtifacts req env co.listDir =
      Except.ok ({ req with config_dir := none, config_file := some (d ++ "/" ++ shardFileName k) },
        [{ path := d ++ "/" ++ shardFileName k, name := shardFileName k }]) ∧
    (config_runner co req env).map (fun r => r.invocations) =
      Except.ok [({ req with config_dir := none, config_file := some (d ++ "/" ++ shardFileName k) }, cms)] := by
  have hget : (co.listDir d)[k]? = some (shardFileName k) := by
    rw [hlist]
    rw [List.getElem?_map, List.getElem?_range hkn]
    rfl
  have hres : resolveArtifacts req env co.listDir =
      Except.ok ({ req with config_dir := none, config_file := some (d ++ "/" ++ shardFileName k) },
        [{ path := d ++ "/" ++ shardFileName k, name := shardFileName k }]) := by
    unfold resolveArtifacts
    rw [hf, hd, hk, hs]
    simp [hget]
  refine ⟨hres, ?_⟩
  rw [config_runner_eq_of_resolve co req env _ _ hres]
  have hone : (runBatch co
      { req with config_dir := none, config_file := some (d ++ "/" ++ shardFileName k) }
      [{ path := d ++ "/" ++ shardFileName k, name := shardFileName k }]).invocations =
      [({ req with config_dir := none, config_file := some (d ++ "/" ++ shardFileName k) }, cms)] := by
    cases h2 : co.runValidations (d ++ "/" ++ shardFileName k) <;>
      simp [runBatch, runOneArtifact, hb, h2]
  simp [Except.map, hone]

/-- Witness for C5 amended at the scenario of `test_config_runner_3`:
shard index 2 over the four canonical shard files selects `0002.yaml`. -/
theorem C5_indexed_directory_witness :
    resolveArtifacts reqKube envTwo coBoom.listDir =
      Except.ok ({ reqKube with config_dir := none, config_file := some (dirFour ++ "/" ++ shardFileName 2) },
        [{ path := dirFour ++ "/" ++ shardFileName 2, name := "0002.yaml" }]) ∧
    (config_runner coBoom reqKube envTwo).map (fun r => r.invocations) =
      Except.ok [({ reqKube with config_dir := none, config_file := some (dirFour ++ "/" ++ shardFileName 2) },
        ["config dict from one file"])] :=
  C5_indexed_directory coBoom reqKube envTwo dirFour 2 4
    ["config dict from one file"] rfl rfl rfl rfl (by decide) (by decide) rfl

/-- C6: the Misconfiguration Detector emits exactly one warning (the one
naming the provided specific config file) in single-file mode when
`kube_completions` is true, exactly one warning (the one saying the run is
not in Kubernetes Job completion) in directory-fanout mode when
`kube_completions` is true, and no warning in indexed-directory mode;
warnings never raise: whenever resolution succeeds, the run proceeds and
executes the whole batch alongside the emitted warnings. -/
theorem C6_misconfiguration_warnings (req : ExecutionRequest) (env : Env) :
    (resolveMode req env = Mode.singleFile → req.kube_completions = true →
      checkMisconfiguration (resolveMode req env) req = [kcFileWarning]) ∧
    (resolveMode req env = Mode.dirFanout → req.kube_completions = true →
      checkMisconfiguration (resolveMode req env) req = [kcNoIndexWarning]) ∧
    (resolveMode req env = Mode.indexedDir →
      checkMisconfiguration (resolveMode req env) req = []) ∧
    (∀ (co : Collaborators) (effReq : ExecutionRequest) (arts : List ArtifactRef),
      resolveArtifacts req env co.listDir = Except.ok (effReq, arts) →
      (config_runner co req env).map (fun r => (r.warnings, r.attempted)) =
        Except.ok (checkMisconfiguration (resolveMode req env) req, arts)) := by
  refine ⟨?_, ?_, ?_, ?_⟩
  · intro h hk
    rw [h]
    simp [checkMisconfiguration, hk]
  · intro h hk
    rw [h]
    simp [checkMisconfiguration, hk]
  · intro h
    rw [h]
    simp [checkMisconfiguration]
  · intro co effReq arts hres
    rw [config_runner_eq_of_resolve co req env effReq arts hres]
    simp [Except.map, runBatch_attempted]

/-- Witness for C6 on the three test scenarios: single file with `-kc`
(one warning), directory fan-out with `-kc` and no shard index (one
warning), indexed directory (no warning), plus the executed batch of the
fan-out run. -/
theorem C6_misconfiguration_warnings_witness :
    checkMisconfiguration (resolveMode reqSingle envNone) reqSingle = [kcFileWarning] ∧
    checkMisconfiguration (resolveMode reqKube envNone) reqKube = [kcNoIndexWarning] ∧
    checkMisconfiguration (resolveMode reqKube envTwo) reqKube = [] ∧
    (config_runner coBoom reqFanout envNone).map (fun r => (r.warnings, r.attempted)) =
      Except.ok (checkMisconfiguration (resolveMode reqFanout envNone) reqFanout,
        artsBoom) :=
  ⟨(C6_misconfiguration_warnings reqSingle envNone).1 rfl rfl,
   (C6_misconfiguration_warnings reqKube envNone).2.1 rfl rfl,
   (C6_misconfiguration_warnings reqKube envTwo).2.2.1 rfl,
   (C6_misconfiguration_warnings reqFanout envNone).2.2.2 coBoom reqFanout
     artsBoom rfl⟩

/-- C7: the skip-log lines of a batch are exactly its captured failures, in
order, each rendered verbatim through the fixed template
`Error '<message>' occurred while running config file <name>. Skipping it
for now.`; and the captured failures are exactly the artifacts whose build
or validation raised, each paired with the string form of its exception,
in resolved order. -/
theorem C7_skip_log_template (co : Collaborators) (effReq : ExecutionRequest)
    (arts : List ArtifactRef) :
    (runBatch co effReq arts).skipLogs =
      ((runBatch co effReq arts).failures).map
        (fun p => skipTemplate p.2 p.1.name) ∧
    (runBatch co effReq arts).failures =
      arts.filterMap (fun a => (artifactError co a).map (fun e => (a, e))) :=
  ⟨runBatch_skipLogs co effReq arts, runBatch_failures co effReq arts⟩

/-- C8 counterexample: in the scenario of `test_config_runner_4` (directory
of four shard files, `kube_completions` false, no shard index, the second
artifact's validation raising `Boom!`), the first skip line names
`0001.yaml` — the second file of the 0-based listing — not `0002.yaml` as
claimed. -/
theorem C8_counterexample :
    (config_runner coBoom reqFanout envNone).map (fun r => r.skipLogs.head?) =
      Except.ok (some "Error 'Boom!' occurred while running config file 0001.yaml. Skipping it for now.") ∧
    "Error 'Boom!' occurred while running config file 0001.yaml. Skipping it for now." ≠
      "Error 'Boom!' occurred while running config file 0002.yaml. Skipping it for now." :=
  ⟨rfl, by decide⟩

/-- C8 amended: in that scenario the executor attempts all 4 artifacts, the
engine is invoked 4 times, the single skip line is exactly
`Error 'Boom!' occurred while running config file 0001.yaml. Skipping it
for now.`, and the aggregated failure is produced after all 4 attempts. -/
theorem C8_boom_scenario :
    (config_runner coBoom reqFanout envNone).map
        (fun r => (r.attempted.length, r.invocations.length, r.skipLogs, r.outcome)) =
      Except.ok (4, 4,
        ["Error 'Boom!' occurred while running config file 0001.yaml. Skipping it for now."],
        Except.error aggregatedMessage) := rfl

theorem runOneArtifact_invocations_cases (co : Collaborators)
    (effReq : ExecutionRequest) (st : BatchState) (a : ArtifactRef) :
    (runOneArtifact co effReq st a).invocations = st.invocations ∨
    ∃ cms, (runOneArtifact co effReq st a).invocations =
      st.invocations ++ [(effReq, cms)] := by
  cases hb : co.build a.path with
  | error e => left; simp [runOneArtifact, hb]
  | ok cms =>
    right
    refine ⟨cms, ?_⟩
    cases h2 : co.runValidations a.path <;> simp [runOneArtifact, hb, h2]

theorem foldl_runOne_invocations_fst (co : Collaborators)
    (effReq : ExecutionRequest) :
    ∀ (arts : List ArtifactRef) (st : BatchState),
      (∀ p ∈ st.invocations, p.1 = effReq) →
      ∀ p ∈ (arts.foldl (runOneArtifact co effReq) st).invocations,
        p.1 = effReq := by
  intro arts
  induction arts with
  | nil => intro st h; simpa using h
  | cons a as ih =>
    intro st h
    simp only [List.foldl_cons]
    apply ih
    rcases runOneArtifact_invocations_cases co effReq st a with hc | ⟨cms, hc⟩
    · rw [hc]; exact h
    · rw [hc]
      intro p hp
      rcases List.mem_append.mp hp with hp2 | hp2
      · exact h p hp2
      · rw [List.mem_singleton.mp hp2]

theorem runBatch_invocations_fst (co : Collaborators)
    (effReq : ExecutionRequest) (arts : List ArtifactRef) :
    ∀ p ∈ (runBatch co effReq arts).invocations, p.1 = effReq :=
  foldl_runOne_invocations_fst co effReq arts _
    (fun p hp => absurd hp (List.not_mem_nil p))

/-- C9 counterexample: in indexed-directory mode the request observed by the
validation engine does not equal the original request: its `config_dir` has
been cleared to `none` and its `config_file` set to the selected shard file
(exactly what `test_config_runner_3` asserts at lines 176-177). -/
theorem C9_counterexample :
    reqKube.config_dir = some dirFour ∧
    reqKube.config_file = none ∧
    (config_runner coBoom reqKube envTwo).map
        (fun r => r.invocations.map (fun p => (p.1.config_dir, p.1.config_file))) =
      Except.ok [(none, some "gs://resources/4partitions/0002.yaml")] ∧
    ((none : Option String) ≠ some dirFour) :=
  ⟨rfl, rfl, rfl, by decide⟩

/-- C9 amended: the validation engine always observes the effective request
produced by resolution; in single-file, directory-fanout and no-target
modes this is the original request unchanged, while in indexed-directory
mode it is the original request with `config_dir` cleared to `none` and
`config_file` set to the selected shard file path. -/
theorem C9_request_rewrite (co : Collaborators) (req : ExecutionRequest)
    (env : Env) (effReq : ExecutionRequest) (arts : List ArtifactRef)
    (hres : resolveArtifacts req env co.listDir = Except.ok (effReq, arts)) :
    (∀ res, config_runner co req env = Except.ok res →
      ∀ p ∈ res.invocations, p.1 = effReq) ∧
    (resolveMode req env ≠ Mode.indexedDir → effReq = req) ∧
    (∀ d k n, req.config_file = none → req.config_dir = some d →
      req.kube_completions = true → env.shard_index = some k →
      (co.listDir d)[k]? = some n →
      effReq = { req with config_dir := none, config_file := some (d ++ "/" ++ n) }) := by
  refine ⟨?_, ?_, ?_⟩
  · intro res hrun p hp
    rw [config_runner_eq_of_resolve co req env effReq arts hres] at hrun
    injection hrun with h
    subst h
    exact runBatch_invocations_fst co effReq arts p hp
  · intro hmode
    rcases hcf : req.config_file with _ | f
    · rcases hcd : req.config_dir with _ | d
      · simp [resolveArtifacts, hcf, hcd] at hres
        exact hres.1.symm
      · rcases hsel : (if req.kube_completions then env.shard_index else none)
          with _ | k
        · simp [resolveArtifacts, hcf, hcd, hsel] at hres
          exact hres.1.symm
        · exfalso
          have hkube : req.kube_completions = true := by
            by_contra hkb
            rw [Bool.not_eq_true] at hkb
            simp [hkb] at hsel
          have hsome : env.shard_index = some k := by
            rw [hkube] at hsel
            simpa using hsel
          exact hmode (by simp [resolveMode, hcf, hcd, hkube, hsome])
    · simp [resolveArtifacts, hcf] at hres
      exact hres.1.symm
  · intro d k n hcf hcd hkube hsome hget
    simp [resolveArtifacts, hcf, hcd, hkube, hsome, hget] at hres
    rw [hkube]
    exact hres.1.symm

/-- Witness for C9 amended: in the scenario of `test_config_runner_3` the
effective request is the original with `config_dir` cleared and
`config_file` set to the selected shard file. -/
theorem C9_request_rewrite_witness :
    ({ config_file := some "gs://resources/4partitions/0002.yaml",
       config_dir := none, kube_completions := true, dry_run := false,
       log_level := "INFO" } : ExecutionRequest) =
      { reqKube with config_dir := none, config_file := some (dirFour ++ "/" ++ "0002.yaml") } :=
  (C9_request_rewrite coBoom reqKube envTwo _ _ rfl).2.2 dirFour 2 "0002.yaml"
    rfl rfl rfl rfl rfl
